import Mathlib

/-!
# Verification of the cargo-3ds build driver

A shallow embedding of `src/main.rs` of the cargo-3ds build driver.  Pure
computations (version comparison, commit-date parsing and rendering, argument
vectors, path formatting) are translated directly; the process-level behaviour
of `main` (spawning the cross-compile, SMDH, 3DSX and upload children, the
metadata probe, exit codes and panics) is modelled as a function from an
explicit input record (argument vector, environment, reported compiler
metadata, probed package metadata, filesystem facts, and each child's exit
status) to a trace of the events, the spawned commands, and the final outcome.
-/

namespace Cargo3ds

/-! ## Compiler metadata: channel, semantic version, commit date -/

/-- Release channel of the reported compiler.  The variant order mirrors the
`rustc_version` crate's `Channel` enum (`Dev`, `Nightly`, `Beta`, `Stable`),
whose derived ordering the source compares with `> Channel::Nightly`. -/
inductive Channel
  | dev
  | nightly
  | beta
  | stable
deriving DecidableEq, Repr

/-- Rank of a channel in the derived ordering of the `rustc_version` crate:
`Dev < Nightly < Beta < Stable`. -/
def channelRank : Channel → Nat
  | .dev => 0
  | .nightly => 1
  | .beta => 2
  | .stable => 3

/-- Semantic version of the reported compiler, as the (major, minor, patch)
triple the driver compares against `MINIMUM_RUSTC_VERSION` (pre-release and
build metadata of the external semver type play no role in the pinned
comparison and are out of scope). -/
structure Version where
  major : Nat
  minor : Nat
  patch : Nat
deriving DecidableEq, Repr

/-- Lexicographic (major, minor, patch) order, as the semver ordering used by
`MINIMUM_RUSTC_VERSION > rustc_version.semver`. -/
def versionLt (a b : Version) : Bool :=
  decide (a.major < b.major) ||
    (decide (a.major = b.major) &&
      (decide (a.minor < b.minor) ||
        (decide (a.minor = b.minor) && decide (a.patch < b.patch))))

/-- `struct CommitDate { year: i32, month: i32, day: i32 }` from the source. -/
structure CommitDate where
  year : Int
  month : Int
  day : Int
deriving DecidableEq, Repr

/-- The derived `Ord` of the Rust struct: lexicographic on (year, month, day). -/
def dateLt (a b : CommitDate) : Bool :=
  decide (a.year < b.year) ||
    (decide (a.year = b.year) &&
      (decide (a.month < b.month) ||
        (decide (a.month = b.month) && decide (a.day < b.day))))

/-- Rust's `str::split('-')`: the list of fragments between the dashes,
including empty fragments; an empty input yields one empty fragment. -/
def splitDash : List Char → List (List Char)
  | [] => [[]]
  | c :: rest =>
    if c = '-' then [] :: splitDash rest
    else
      match splitDash rest with
      | [] => [[c]]
      | p :: ps => (c :: p) :: ps

/-- ASCII digit test (`'0'` to `'9'`), as used by Rust's integer parsing. -/
def isDigitChar (c : Char) : Bool :=
  decide (48 ≤ c.toNat) && decide (c.toNat ≤ 57)

/-- Numeric value of an ASCII digit character. -/
def digitVal (c : Char) : Nat := c.toNat - 48

/-- Every character of the list is an ASCII digit. -/
def allDigits (cs : List Char) : Bool := cs.all isDigitChar

/-- Decimal value of a digit string, most significant digit first. -/
def digitsVal (cs : List Char) : Nat :=
  cs.foldl (fun acc c => 10 * acc + digitVal c) 0

/-- The digit part of Rust's `i32::from_str`: one or more ASCII digits,
nothing else. -/
def parseNatDigits (cs : List Char) : Option Nat :=
  if !cs.isEmpty && allDigits cs then some (digitsVal cs) else none

/-- Rust's `str::parse::<i32>()`: an optional single `+` or `-` sign followed
by one or more ASCII digits, rejecting values outside the `i32` range. -/
def parseI32 (cs : List Char) : Option Int :=
  match cs with
  | [] => none
  | c :: rest =>
    if c = '+' then
      (parseNatDigits rest).bind fun n =>
        if n ≤ 2147483647 then some ((n : Int)) else none
    else if c = '-' then
      (parseNatDigits rest).bind fun n =>
        if n ≤ 2147483648 then some (-(n : Int)) else none
    else
      (parseNatDigits (c :: rest)).bind fun n =>
        if n ≤ 2147483647 then some ((n : Int)) else none

/-- `CommitDate::parse`: split the string on `-` and parse the first three
fragments as `i32` year, month and day; any missing or unparsable fragment
yields `None`, extra fragments are ignored. -/
def CommitDate.parse (s : String) : Option CommitDate :=
  match splitDash s.data with
  | y :: m :: d :: _ =>
    match parseI32 y, parseI32 m, parseI32 d with
    | some yy, some mm, some dd => some ⟨yy, mm, dd⟩
    | _, _, _ => none
  | _ => none

/-- Decimal digit character, for rendering. -/
def digitChar (n : Nat) : Char := Char.ofNat (48 + n)

/-- Decimal rendering of a natural number, most significant digit first,
rendering `0` as `"0"` (Rust's `Display` for unsigned decimal digits). -/
def natToChars (n : Nat) : List Char :=
  if _h : n < 10 then [digitChar n]
  else natToChars (n / 10) ++ [digitChar (n % 10)]
decreasing_by exact Nat.div_lt_self (by omega) (by omega)

/-- Left-pad a digit string with `'0'` up to width `w`. -/
def padZerosL (w : Nat) (cs : List Char) : List Char :=
  List.replicate (w - cs.length) '0' ++ cs

/-- Rust's `{:0w}` formatting of an `i32`: zero-padded to minimum width `w`,
with the `-` sign counted inside the width for negative values. -/
def fmtIntPad (w : Nat) (n : Int) : List Char :=
  if n < 0 then '-' :: padZerosL (w - 1) (natToChars n.natAbs)
  else padZerosL w (natToChars n.toNat)

/-- The `Display` impl for `CommitDate`: `"{:04}-{:02}-{:02}"`. -/
def CommitDate.display (d : CommitDate) : String :=
  ⟨fmtIntPad 4 d.year ++ '-' :: fmtIntPad 2 d.month ++ '-' :: fmtIntPad 2 d.day⟩

/-- The claim's `YYYY-MM-DD` format (from the spec's words): exactly four
ASCII digits, a dash, two digits, a dash, and two digits. -/
def validYMD (s : String) : Bool :=
  match s.data with
  | [a, b, c, d, h1, e, f, h2, g, k] =>
    isDigitChar a && isDigitChar b && isDigitChar c && isDigitChar d &&
      (h1 == '-') && isDigitChar e && isDigitChar f && (h2 == '-') &&
      isDigitChar g && isDigitChar k
  | _ => false

/-- `const MINIMUM_COMMIT_DATE` from the source. -/
def minimumCommitDate : CommitDate := ⟨2021, 10, 1⟩

/-- `const MINIMUM_RUSTC_VERSION` from the source. -/
def minimumRustcVersion : Version := ⟨1, 56, 0⟩

/-! ## The toolchain gate -/

/-- Result of `check_rust_version`: return silently, `process::exit(1)`, or a
Rust panic (from the `.expect(..)` on an unparsable commit date). -/
inductive GateResult
  | proceed
  | exitOne
  | panicked (msg : String)
deriving DecidableEq, Repr

/-- `check_rust_version` from the source: reject (exit 1) a channel above
`Nightly` in the `rustc_version` ordering; otherwise compute
`old_version = MINIMUM_RUSTC_VERSION > semver` and
`old_commit = MINIMUM_COMMIT_DATE > parse(date)` (with `false` for a missing
date, and a panic for an unparsable one), and exit 1 when either holds. -/
def checkRustVersion (ch : Channel) (semver : Version) (commitDate : Option String) :
    GateResult :=
  if channelRank ch > channelRank Channel.nightly then .exitOne
  else
    let oldVersion := versionLt semver minimumRustcVersion
    match commitDate with
    | none => if oldVersion then .exitOne else .proceed
    | some s =>
      match CommitDate.parse s with
      | none => .panicked "could not parse `rustc --version` commit date"
      | some cd =>
        if oldVersion || dateLt cd minimumCommitDate then .exitOne else .proceed

/-! ## Children, the probe, and the driver -/

/-- Termination status of a spawned child: a numeric exit code, or killed by a
signal (Rust's `ExitStatus::code()` returning `None`). -/
inductive ChildStatus
  | exited (code : Int)
  | signalled
deriving DecidableEq, Repr

/-- `ExitStatus::success()`: true exactly for exit code 0. -/
def ChildStatus.success : ChildStatus → Bool
  | .exited 0 => true
  | _ => false

/-- The code the driver propagates: `match status.code() { Some(i) => i,
None => 1 }` — the child's own code, falling back to 1 for a signal. -/
def ChildStatus.exitCode : ChildStatus → Int
  | .exited c => c
  | .signalled => 1

/-- `struct CTRConfig` from the source. -/
structure CTRConfig where
  name : String
  author : String
  description : String
  icon : String
deriving DecidableEq, Repr

/-- A spawned command: program name, argument vector, and the `RUSTFLAGS`
value set in its environment (only Stage A sets one). -/
structure Cmd where
  prog : String
  args : List String
  rustflagsEnv : Option String
deriving DecidableEq, Repr

/-- The observable steps of one driver execution, in order. -/
inductive Event
  | gate
  | stageA
  | probe
  | stageB
  | stageC
  | upload
deriving DecidableEq, Repr

/-- Final outcome of the driver process: `main` returns, `process::exit(c)`,
or a Rust panic. -/
inductive Outcome
  | completes
  | exits (code : Int)
  | panicked (msg : String)
deriving DecidableEq, Repr

/-- Modelled from Rust's runtime semantics: the process exit status is 0 when
`main` returns, the code passed to `process::exit`, and 101 for an uncaught
panic. -/
def Outcome.status : Outcome → Int
  | .completes => 0
  | .exits c => c
  | .panicked _ => 101

/-- Everything one driver execution depends on: the argument vector, the
`RUSTFLAGS` and `DEVKITPRO` environment variables, the compiler metadata the
gate queries, the package metadata the probe reports, the filesystem facts the
driver tests, and the termination status of each child it may spawn. -/
structure DriverInput where
  argv : List String
  rustflags : Option String
  channel : Channel
  semver : Version
  commitDate : Option String
  metadataOk : Bool
  rootPresent : Bool
  pkgName : String
  pkgAuthors : List String
  pkgDescription : Option String
  iconExists : Bool
  devkitpro : Option String
  romfsReadable : Bool
  stageA : ChildStatus
  stageB : ChildStatus
  stageC : ChildStatus
  upload : ChildStatus
deriving DecidableEq, Repr

/-- The fixed default description substituted for a missing one. -/
def defaultDescription : String := "Homebrew Application"

/-- `get_metadata` from the source: require the metadata probe to succeed and
a root package to exist (each `.expect(..)` otherwise panics); resolve the
icon to `./icon.png` when that file opens, else to
`$DEVKITPRO/libctru/default_icon.png` (panicking via `.unwrap()` when
`DEVKITPRO` is unset); then build the config from the package name, the first
author (an out-of-bounds panic when the authors list is empty), and the
description with `unwrap_or("Homebrew Application")`. -/
def getMeta (i : DriverInput) : Except String CTRConfig :=
  if !i.metadataOk then .error "Failed to get cargo metadata"
  else if !i.rootPresent then .error "No root crate found"
  else
    let iconRes : Except String String :=
      if i.iconExists then .ok "./icon.png"
      else
        match i.devkitpro with
        | none => .error "called `Result::unwrap()` on an `Err` value"
        | some dk => .ok (dk ++ "/libctru/default_icon.png")
    match iconRes with
    | .error m => .error m
    | .ok icon =>
      match i.pkgAuthors with
      | [] => .error "index out of bounds: the len is 0 but the index is 0"
      | a :: _ => .ok ⟨i.pkgName, a, i.pkgDescription.getD defaultDescription, icon⟩

/-- The linker flags `build_elf` appends to `RUSTFLAGS`. -/
def appendedLinkerFlags : String :=
  "-Clink-arg=-specs=3dsx.specs -Clink-arg=-z -Clink-arg=muldefs -Clink-arg=-D__3DS__"

/-- `env::var("RUSTFLAGS").unwrap_or("".into()) + appended`: the prior value
(empty when unset) directly concatenated with the appended flags. -/
def mergedRustflags (prior : Option String) : String :=
  prior.getD "" ++ appendedLinkerFlags

/-- `format!("./target/armv6k-nintendo-3ds/{}/{}{}", optLvl, name, ext)`, the
canonical artifact path scheme of the source's three `format!` calls. -/
def artifactPath (optLvl name ext : String) : String :=
  "./target/armv6k-nintendo-3ds/" ++ optLvl ++ "/" ++ name ++ ext

/-- The Stage A invocation built by `build_elf`: `cargo build -Z
unstable-options -Z build-std --target armv6k-nintendo-3ds` followed by the
remaining user arguments, with the merged `RUSTFLAGS` in its environment. -/
def stageACmd (userArgs : List String) (rustflags : Option String) : Cmd :=
  ⟨"cargo",
    ["build", "-Z", "unstable-options", "-Z", "build-std", "--target",
      "armv6k-nintendo-3ds"] ++ userArgs,
    some (mergedRustflags rustflags)⟩

/-- The SMDH packer invocation built by `build_3dsx`. -/
def stageBCmd (conf : CTRConfig) (optLvl : String) : Cmd :=
  ⟨"smdhtool",
    ["--create", conf.name, conf.description, conf.author, conf.icon,
      artifactPath optLvl conf.name ".smdh"],
    none⟩

/-- The romfs argument appended by `build_3dsx`, written in the source as the
literal `"--romfs=\"./romfs\""` — the quotes are part of the argument. -/
def romfsArg : String := "--romfs=\"./romfs\""

/-- The 3DSX container invocation built by `build_3dsx`, with the romfs
argument appended exactly when `read_dir("./romfs")` succeeded. -/
def stageCCmd (conf : CTRConfig) (optLvl : String) (romfs : Bool) : Cmd :=
  ⟨"3dsxtool",
    [artifactPath optLvl conf.name ".elf", artifactPath optLvl conf.name ".3dsx",
      "--smdh=" ++ artifactPath optLvl conf.name ".smdh"] ++
      (if romfs then [romfsArg] else []),
    none⟩

/-- The uploader invocation built by `link`. -/
def uploadCmd (name optLvl : String) : Cmd :=
  ⟨"3dslink", [artifactPath optLvl name ".3dsx"], none⟩

/-- One driver execution, observed: the events in order, the stage commands
spawned in order, and the final process outcome. -/
structure Trace where
  events : List Event
  cmds : List Cmd
  outcome : Outcome
deriving DecidableEq, Repr

/-- `args.contains(&String::from("--release"))` over the full process argument
vector, selecting the artifact path segment. -/
def optimizationLevel (argv : List String) : String :=
  if argv.contains "--release" then "release" else "debug"

/-- The panic message for a missing verb. -/
def noCommandMsg : String := "No command specified, try with \"build\" or \"link\""

/-- The panic message for an unrecognized verb. -/
def invalidCommandMsg : String := "Invalid command, try with \"build\" or \"link\""

/-- The verb dispatch of `main`: skip the two `cargo 3ds` positions, then map
`build` to no upload, `link` to upload, and panic on anything else or on a
missing verb. -/
def parseVerb (argv : List String) : Except String Bool :=
  match (argv.drop 2).head? with
  | none => .error noCommandMsg
  | some s =>
    if s = "build" then .ok false
    else if s = "link" then .ok true
    else .error invalidCommandMsg

/-- `main` from the source: run the gate, compute the optimization level from
the full argument vector, dispatch the verb, spawn Stage A (`build_elf`) with
the remaining user arguments, then the metadata probe, then Stage B and Stage
C (`build_3dsx`), then — for `link` — the uploader; each failing child makes
the driver exit with that child's propagated code at once. -/
def runDriver (i : DriverInput) : Trace :=
  match checkRustVersion i.channel i.semver i.commitDate with
  | .exitOne => ⟨[.gate], [], .exits 1⟩
  | .panicked m => ⟨[.gate], [], .panicked m⟩
  | .proceed =>
    let optLvl := optimizationLevel i.argv
    match parseVerb i.argv with
    | .error m => ⟨[.gate], [], .panicked m⟩
    | .ok mustLink =>
      let cmdA := stageACmd (i.argv.drop 3) i.rustflags
      if !i.stageA.success then
        ⟨[.gate, .stageA], [cmdA], .exits i.stageA.exitCode⟩
      else
        match getMeta i with
        | .error m => ⟨[.gate, .stageA, .probe], [cmdA], .panicked m⟩
        | .ok conf =>
          let cmdB := stageBCmd conf optLvl
          if !i.stageB.success then
            ⟨[.gate, .stageA, .probe, .stageB], [cmdA, cmdB], .exits i.stageB.exitCode⟩
          else
            let cmdC := stageCCmd conf optLvl i.romfsReadable
            if !i.stageC.success then
              ⟨[.gate, .stageA, .probe, .stageB, .stageC], [cmdA, cmdB, cmdC],
                .exits i.stageC.exitCode⟩
            else
              if mustLink then
                let cmdL := uploadCmd conf.name optLvl
                if !i.upload.success then
                  ⟨[.gate, .stageA, .probe, .stageB, .stageC, .upload],
                    [cmdA, cmdB, cmdC, cmdL], .exits i.upload.exitCode⟩
                else
                  ⟨[.gate, .stageA, .probe, .stageB, .stageC, .upload],
                    [cmdA, cmdB, cmdC, cmdL], .completes⟩
              else
                ⟨[.gate, .stageA, .probe, .stageB, .stageC], [cmdA, cmdB, cmdC],
                  .completes⟩

/-! ## Helper lemmas -/

/-- A canonical artifact path begins with `.`, so it is never the romfs
argument (which begins with `-`). -/
lemma artifactPath_ne_romfsArg (optLvl name ext : String) :
    artifactPath optLvl name ext ≠ romfsArg := by
  intro h
  have h2 : (artifactPath optLvl name ext).data = romfsArg.data := congrArg String.data h
  have h3 : (artifactPath optLvl name ext).data =
      '.' :: ("/target/armv6k-nintendo-3ds/" ++ optLvl ++ "/" ++ name ++ ext).data := rfl
  have h4 : romfsArg.data = '-' :: "-romfs=\"./romfs\"".data := rfl
  rw [h3, h4] at h2
  injection h2 with h5 _
  exact absurd h5 (by decide)

/-- The `--smdh=` argument is never the romfs argument. -/
lemma smdhArg_ne_romfsArg (p : String) : "--smdh=" ++ p ≠ romfsArg := by
  intro h
  have h2 : ("--smdh=" ++ p).data = romfsArg.data := congrArg String.data h
  have h3 : ("--smdh=" ++ p).data = '-' :: '-' :: 's' :: ("mdh=" ++ p).data := rfl
  have h4 : romfsArg.data = '-' :: '-' :: 'r' :: "omfs=\"./romfs\"".data := rfl
  rw [h3, h4] at h2
  injection h2 with _ h5
  injection h5 with _ h6
  injection h6 with h7 _
  exact absurd h7 (by decide)

/-- Every command list the driver spawns is a prefix of the full pipeline
command list (Stage A, then — when the probe succeeded — Stage B, Stage C and
the uploader, all built with the optimization level from the argument
vector). -/
lemma runDriver_cmds_prefix (i : DriverInput) :
    ∃ n, (runDriver i).cmds =
      (stageACmd (i.argv.drop 3) i.rustflags ::
        (match getMeta i with
         | .ok conf =>
           [stageBCmd conf (optimizationLevel i.argv),
            stageCCmd conf (optimizationLevel i.argv) i.romfsReadable,
            uploadCmd conf.name (optimizationLevel i.argv)]
         | .error _ => [])).take n := by
  unfold runDriver
  split
  · exact ⟨0, rfl⟩
  · exact ⟨0, rfl⟩
  · split
    · exact ⟨0, rfl⟩
    · split
      · exact ⟨1, rfl⟩
      · split
        · next heq => rw [heq]; exact ⟨1, rfl⟩
        · next conf heq =>
          rw [heq]
          split
          · exact ⟨2, rfl⟩
          · split
            · exact ⟨3, rfl⟩
            · split
              · split
                · exact ⟨4, rfl⟩
                · exact ⟨4, rfl⟩
              · exact ⟨3, rfl⟩

/-! ## Concrete inputs used as witnesses and counterexamples -/

/-- A fully successful `build` run: nightly toolchain above the floor, root
package `hello` by `alice`, local icon, no romfs, all children exit 0. -/
def iC5 : DriverInput :=
  ⟨["cargo", "3ds", "build"], none, .nightly, ⟨1, 60, 0⟩, none,
    true, true, "hello", ["alice"], none, true, none, false,
    .exited 0, .exited 0, .exited 0, .exited 0⟩

/-! ## C3 — RUSTFLAGS merge -/

/-- C3: the claim says Stage A's `RUSTFLAGS` is the caller's value, a single
space, then the appended linker flags.  The source concatenates with no
separator: for the prior value `-Copt-level=3` the child sees
`-Copt-level=3-Clink-arg=…`, not the space-separated form; in general the
merged value is the plain concatenation, and Stage A's environment carries
exactly that merged value. -/
theorem C3_rustflags_no_separator :
    mergedRustflags (some "-Copt-level=3") =
      "-Copt-level=3-Clink-arg=-specs=3dsx.specs -Clink-arg=-z -Clink-arg=muldefs -Clink-arg=-D__3DS__" ∧
    mergedRustflags (some "-Copt-level=3") ≠
      "-Copt-level=3 -Clink-arg=-specs=3dsx.specs -Clink-arg=-z -Clink-arg=muldefs -Clink-arg=-D__3DS__" ∧
    (∀ x : String, mergedRustflags (some x) = x ++ appendedLinkerFlags) ∧
    (∀ userArgs rf, (stageACmd userArgs rf).rustflagsEnv = some (mergedRustflags rf)) := by
  refine ⟨rfl, by decide, fun x => rfl, fun _ _ => rfl⟩

/-! ## C5 — pipeline ordering -/

/-- C5 counterexample: on a fully successful `build` run the driver's event
order is Gate, Stage A, Probe, Stage B, Stage C — the probe does **not**
execute before Stage A, contradicting the claimed
Gate → Probe → Stage A order. -/
theorem C5_order_counterexample :
    (runDriver iC5).events =
      [Event.gate, Event.stageA, Event.probe, Event.stageB, Event.stageC] ∧
    ¬ (runDriver iC5).events.indexOf Event.probe <
        (runDriver iC5).events.indexOf Event.stageA := by
  exact ⟨rfl, by decide⟩

/-- C5 (amended): every execution's event sequence is a prefix of
Gate → Stage A → Probe → Stage B → Stage C → Uploader: the cross-compile runs
before the project probe, and all later stages in the listed order. -/
theorem C5_pipeline_order (i : DriverInput) :
    ∃ n, (runDriver i).events =
      [Event.gate, Event.stageA, Event.probe, Event.stageB, Event.stageC,
        Event.upload].take n := by
  unfold runDriver
  split
  · exact ⟨1, rfl⟩
  · exact ⟨1, rfl⟩
  · split
    · exact ⟨1, rfl⟩
    · split
      · exact ⟨2, rfl⟩
      · split
        · exact ⟨3, rfl⟩
        · split
          · exact ⟨4, rfl⟩
          · split
            · exact ⟨5, rfl⟩
            · split
              · split
                · exact ⟨6, rfl⟩
                · exact ⟨6, rfl⟩
              · exact ⟨5, rfl⟩

/-! ## C6 — optimization path segment -/

/-- C6: the artifact path segment is exactly `release` iff `--release` occurs
anywhere in the process's argument vector and exactly `debug` otherwise; and
every spawned non-Stage-A command is built with that segment. -/
theorem C6_optimization_path (i : DriverInput) :
    (optimizationLevel i.argv = "release" ↔ "--release" ∈ i.argv) ∧
    ("--release" ∉ i.argv → optimizationLevel i.argv = "debug") ∧
    (∀ cmd ∈ (runDriver i).cmds, cmd.prog ≠ "cargo" →
      ∃ conf, getMeta i = .ok conf ∧
        (cmd = stageBCmd conf (optimizationLevel i.argv) ∨
          cmd = stageCCmd conf (optimizationLevel i.argv) i.romfsReadable ∨
          cmd = uploadCmd conf.name (optimizationLevel i.argv))) := by
  refine ⟨⟨?_, ?_⟩, ?_, ?_⟩
  · intro h
    by_contra hmem
    have hc : i.argv.contains "--release" = false := by
      rcases Bool.eq_false_or_eq_true (i.argv.contains "--release") with ht | hf
      · exact absurd (List.elem_iff.mp ht) hmem
      · exact hf
    rw [optimizationLevel, hc] at h
    exact absurd h (by decide)
  · intro h
    have hc : i.argv.contains "--release" = true := List.elem_iff.mpr h
    rw [optimizationLevel, hc]
    rfl
  · intro h
    have hc : i.argv.contains "--release" = false := by
      rcases Bool.eq_false_or_eq_true (i.argv.contains "--release") with ht | hf
      · exact absurd (List.elem_iff.mp ht) h
      · exact hf
    rw [optimizationLevel, hc]
    rfl
  · intro cmd hmem hprog
    obtain ⟨n, hn⟩ := runDriver_cmds_prefix i
    rw [hn] at hmem
    have hmem' := List.mem_of_mem_take hmem
    cases heq : getMeta i with
    | error m =>
      rw [heq] at hmem'
      simp only [List.mem_cons, List.not_mem_nil, or_false] at hmem'
      rw [hmem'] at hprog
      exact absurd rfl hprog
    | ok conf =>
      rw [heq] at hmem'
      simp only [List.mem_cons, List.not_mem_nil, or_false] at hmem'
      rcases hmem' with h | h | h | h
      · rw [h] at hprog; exact absurd rfl hprog
      · exact ⟨conf, rfl, Or.inl h⟩
      · exact ⟨conf, rfl, Or.inr (Or.inl h)⟩
      · exact ⟨conf, rfl, Or.inr (Or.inr h)⟩

/-- Witness for C6 at a concrete input: with `--release` in the vector the
segment is `release`. -/
theorem C6_optimization_path_witness :
    optimizationLevel ["cargo", "3ds", "build", "--release"] = "release" := by
  have h := C6_optimization_path
    ⟨["cargo", "3ds", "build", "--release"], none, .nightly, ⟨1, 60, 0⟩, none,
      true, true, "hello", ["alice"], none, true, none, false,
      .exited 0, .exited 0, .exited 0, .exited 0⟩
  exact h.1.mpr (by decide)

/-! ## C7 — romfs inclusion -/

/-- A successful `build` run whose working directory has a readable `./romfs`
directory. -/
def iC7 : DriverInput :=
  ⟨["cargo", "3ds", "build"], none, .nightly, ⟨1, 60, 0⟩, none,
    true, true, "hello", ["alice"], none, true, none, true,
    .exited 0, .exited 0, .exited 0, .exited 0⟩

/-- C7 counterexample: with `./romfs` readable, Stage C's argument vector does
**not** contain the exact string `--romfs=./romfs`; the argument the source
appends carries literal quote characters, `--romfs="./romfs"`. -/
theorem C7_romfs_counterexample :
    iC7.romfsReadable = true ∧
    "--romfs=./romfs" ∉ ((runDriver iC7).cmds.getD 2 ⟨"", [], none⟩).args ∧
    "--romfs=\"./romfs\"" ∈ ((runDriver iC7).cmds.getD 2 ⟨"", [], none⟩).args := by
  refine ⟨rfl, by decide, by decide⟩

/-- C7 (amended): Stage C's argument vector contains the literal argument
`--romfs="./romfs"` (quotes included) iff `./romfs` is a readable directory at
invocation time, and when it is not, the vector is exactly the three
positional/`--smdh=` arguments with nothing added. -/
theorem C7_romfs_flag (conf : CTRConfig) (optLvl : String) (romfs : Bool) :
    (romfsArg ∈ (stageCCmd conf optLvl romfs).args ↔ romfs = true) ∧
    (stageCCmd conf optLvl false).args =
      [artifactPath optLvl conf.name ".elf", artifactPath optLvl conf.name ".3dsx",
        "--smdh=" ++ artifactPath optLvl conf.name ".smdh"] := by
  constructor
  · constructor
    · intro h
      cases romfs with
      | true => rfl
      | false =>
        simp only [stageCCmd, List.append_nil, if_neg Bool.false_ne_true,
          List.mem_cons, List.not_mem_nil, or_false] at h
        rcases h with h | h | h
        · exact absurd h.symm (artifactPath_ne_romfsArg _ _ _)
        · exact absurd h.symm (artifactPath_ne_romfsArg _ _ _)
        · exact absurd h.symm (smdhArg_ne_romfsArg _)
    · intro h
      rw [h]
      simp [stageCCmd]
  · rfl

/-- Witness for C7 at a concrete input: with romfs present the quoted argument
is in the vector. -/
theorem C7_romfs_flag_witness :
    romfsArg ∈ (stageCCmd ⟨"hello", "alice", "Homebrew Application", "./icon.png"⟩
      "debug" true).args :=
  (C7_romfs_flag ⟨"hello", "alice", "Homebrew Application", "./icon.png"⟩
    "debug" true).1.mpr rfl

/-! ## C9 — description default -/

/-- A successful probe whose package metadata carries the empty string as its
description. -/
def iC9 : DriverInput :=
  ⟨["cargo", "3ds", "build"], none, .nightly, ⟨1, 60, 0⟩, none,
    true, true, "hello", ["alice"], some "", true, none, false,
    .exited 0, .exited 0, .exited 0, .exited 0⟩

/-- C9 counterexample: when the probed description is present but empty, the
config record's description is the empty string, not the claimed
`Homebrew Application` default — `unwrap_or` substitutes only for an absent
description. -/
theorem C9_description_counterexample :
    iC9.pkgDescription = some "" ∧
    getMeta iC9 = .ok ⟨"hello", "alice", "", "./icon.png"⟩ ∧
    ¬ (⟨"hello", "alice", "", "./icon.png"⟩ : CTRConfig).description =
        defaultDescription := by
  refine ⟨rfl, rfl, by decide⟩

/-- C9 (amended): the config description equals the probed description
whenever one is present — even when it is the empty string — and equals the
fixed `Homebrew Application` default exactly when the probed description is
absent. -/
theorem C9_description_default (i : DriverInput) (conf : CTRConfig)
    (h : getMeta i = .ok conf) :
    (∀ d, i.pkgDescription = some d → conf.description = d) ∧
    (i.pkgDescription = none → conf.description = defaultDescription) := by
  have hdesc : conf.description = i.pkgDescription.getD defaultDescription := by
    obtain ⟨argv, rf, ch, sv, cdt, mok, rp, nm, auth, desc, ic, dk, rr, sA, sB, sC, up⟩ := i
    cases mok <;> cases rp <;> cases ic <;> cases dk <;> cases auth <;>
      simp only [getMeta, Bool.not_true, Bool.not_false, if_true, if_false,
        ite_true, ite_false, reduceCtorEq] at h <;>
      injection h with h2 <;> rw [← h2]
  constructor
  · intro d hd
    rw [hdesc, hd]
    rfl
  · intro hd
    rw [hdesc, hd]
    rfl

/-- A successful probe with a present, non-empty description. -/
def iC9w : DriverInput :=
  ⟨["cargo", "3ds", "build"], none, .nightly, ⟨1, 60, 0⟩, none,
    true, true, "hello", ["alice"], some "My game", true, none, false,
    .exited 0, .exited 0, .exited 0, .exited 0⟩

/-- Witness for C9 at a concrete input: a present description is kept
verbatim. -/
theorem C9_description_default_witness :
    (⟨"hello", "alice", "My game", "./icon.png"⟩ : CTRConfig).description =
      "My game" :=
  (C9_description_default iC9w ⟨"hello", "alice", "My game", "./icon.png"⟩
    rfl).1 "My game" rfl

/-! ## C10 — empty authors list -/

/-- C10: with a probed root package whose authors list is empty, the probe
reads `authors[0]` and panics with the out-of-bounds message: no config record
is produced, and (whenever the driver reaches the probe) the process ends with
panic status 101, not exit code 1 and not a normal completion. -/
theorem C10_empty_authors_panic (i : DriverInput)
    (hm : i.metadataOk = true) (hr : i.rootPresent = true)
    (ha : i.pkgAuthors = []) :
    (∀ conf, getMeta i ≠ .ok conf) ∧
    (i.iconExists = true →
      getMeta i = .error "index out of bounds: the len is 0 but the index is 0") ∧
    (∀ dk, i.devkitpro = some dk →
      getMeta i = .error "index out of bounds: the len is 0 but the index is 0") ∧
    (checkRustVersion i.channel i.semver i.commitDate = .proceed →
      ∀ ml, parseVerb i.argv = .ok ml → i.stageA.success = true →
        (runDriver i).outcome.status = 101 ∧
        (runDriver i).outcome ≠ .exits 1 ∧
        (runDriver i).outcome ≠ .completes) := by
  have herr : ∀ conf, getMeta i ≠ .ok conf := by
    intro conf h
    unfold getMeta at h
    rw [hm, hr] at h
    simp only [Bool.not_true, Bool.false_eq_true, if_false] at h
    split at h
    · exact absurd h (by simp)
    · rw [ha] at h
      exact absurd h (by simp)
  refine ⟨herr, ?_, ?_, ?_⟩
  · intro hicon
    unfold getMeta
    rw [hm, hr, hicon, ha]
    rfl
  · intro dk hdk
    unfold getMeta
    rw [hm, hr, hdk, ha]
    cases i.iconExists <;> rfl
  · intro hg ml hv hA
    have hpan : ∃ m, getMeta i = .error m := by
      cases hgm : getMeta i with
      | error m => exact ⟨m, rfl⟩
      | ok conf => exact absurd hgm (herr conf)
    obtain ⟨m, hgm⟩ := hpan
    unfold runDriver
    rw [hg, hv, hA]
    simp only [Bool.not_true, Bool.false_eq_true, if_false, hgm]
    exact ⟨rfl, by simp, by simp⟩

/-- A reachable probe input whose root package has no authors. -/
def iC10 : DriverInput :=
  ⟨["cargo", "3ds", "build"], none, .nightly, ⟨1, 60, 0⟩, none,
    true, true, "hello", [], none, true, none, false,
    .exited 0, .exited 0, .exited 0, .exited 0⟩

/-- Witness for C10 at a concrete input. -/
theorem C10_empty_authors_panic_witness :
    getMeta iC10 = .error "index out of bounds: the len is 0 but the index is 0" ∧
    (runDriver iC10).outcome.status = 101 ∧
    (runDriver iC10).outcome ≠ .exits 1 := by
  have h := C10_empty_authors_panic iC10 rfl rfl rfl
  exact ⟨h.2.1 rfl, (h.2.2.2 rfl false rfl rfl).1, (h.2.2.2 rfl false rfl rfl).2.1⟩

/-! ## C2 — the version gate -/

/-- The claim's rejection predicate over a reported (channel, semver,
commit-date) tuple: channel stricter than nightly, or semantic version below
the pinned minimum, or a present commit date below the pinned minimum. -/
def gateRejects (i : DriverInput) : Prop :=
  channelRank i.channel > channelRank Channel.nightly ∨
    versionLt i.semver minimumRustcVersion = true ∨
    ∃ s cd, i.commitDate = some s ∧ CommitDate.parse s = some cd ∧
      dateLt cd minimumCommitDate = true

/-- C2: over every reported tuple whose commit date is absent or parses, the
gate exits with code 1 — spawning no stage — exactly on the rejection
predicate (stable and beta rejected, nightly and dev accepted, absent commit
date passing the age check), and otherwise returns so the driver proceeds. -/
theorem C2_version_gate (i : DriverInput)
    (hd : i.commitDate = none ∨
      ∃ s cd, i.commitDate = some s ∧ CommitDate.parse s = some cd) :
    (gateRejects i →
      checkRustVersion i.channel i.semver i.commitDate = .exitOne ∧
      (runDriver i).outcome = .exits 1 ∧ (runDriver i).events = [Event.gate] ∧
      (runDriver i).cmds = []) ∧
    (¬ gateRejects i →
      checkRustVersion i.channel i.semver i.commitDate = .proceed) := by
  constructor
  · intro hrej
    have hexit : checkRustVersion i.channel i.semver i.commitDate = .exitOne := by
      by_cases hch : channelRank i.channel > channelRank Channel.nightly
      · simp [checkRustVersion, hch]
      · rcases hrej with h | h | h
        · exact absurd h hch
        · rcases hd with hnone | ⟨s, cd, hs, hp⟩
          · simp [checkRustVersion, hch, hnone, h]
          · simp [checkRustVersion, hch, hs, hp, h]
        · obtain ⟨s, cd, hs, hp, hlt⟩ := h
          simp [checkRustVersion, hch, hs, hp, hlt]
    refine ⟨hexit, ?_, ?_, ?_⟩ <;> (unfold runDriver; rw [hexit])
  · intro hrej
    unfold gateRejects at hrej
    push_neg at hrej
    obtain ⟨h1, h2, h3⟩ := hrej
    have h2' : versionLt i.semver minimumRustcVersion = false := by
      cases hv : versionLt i.semver minimumRustcVersion
      · rfl
      · exact absurd hv h2
    rcases hd with hnone | ⟨s, cd, hs, hp⟩
    · simp [checkRustVersion, h1, hnone, h2']
    · have h3' : dateLt cd minimumCommitDate = false := by
        cases hl : dateLt cd minimumCommitDate
        · rfl
        · exact absurd hl (h3 s cd hs hp)
      simp [checkRustVersion, h1, hs, hp, h2', h3']

/-- A stable-channel report with an otherwise current version. -/
def iC2 : DriverInput :=
  ⟨["cargo", "3ds", "build"], none, .stable, ⟨1, 60, 0⟩, none,
    true, true, "hello", ["alice"], none, true, none, false,
    .exited 0, .exited 0, .exited 0, .exited 0⟩

/-- Witness for C2 at a concrete input: a stable channel is rejected with
exit code 1 and nothing is spawned. -/
theorem C2_version_gate_witness :
    checkRustVersion iC2.channel iC2.semver iC2.commitDate = .exitOne ∧
    (runDriver iC2).outcome = .exits 1 ∧ (runDriver iC2).events = [Event.gate] ∧
    (runDriver iC2).cmds = [] :=
  (C2_version_gate iC2 (Or.inl rfl)).1 (Or.inl (by decide))

/-! ## C4 — verb dispatch -/

/-- A gate-passing input with the unknown verb `clean`. -/
def iC4 : DriverInput :=
  ⟨["cargo", "3ds", "clean"], none, .nightly, ⟨1, 60, 0⟩, none,
    true, true, "hello", ["alice"], none, true, none, false,
    .exited 0, .exited 0, .exited 0, .exited 0⟩

/-- C4 counterexample: with the unknown verb `clean` the driver terminates by
panic — process status 101 — and not with exit code 1 as claimed (it does
spawn nothing). -/
theorem C4_exit_code_counterexample :
    (runDriver iC4).outcome = .panicked invalidCommandMsg ∧
    (runDriver iC4).outcome ≠ .exits 1 ∧
    (runDriver iC4).outcome.status = 101 ∧
    (runDriver iC4).cmds = [] := by
  refine ⟨rfl, by decide, rfl, rfl⟩

/-- C4 (amended): past the gate, the verb `build` makes the driver spawn
exactly the three build stages and nothing else, `link` additionally the
uploader after them; any other verb — or a missing one — makes the driver
terminate by panic (abnormal status 101, not exit code 1) before spawning any
stage. -/
theorem C4_verb_dispatch (i : DriverInput)
    (hg : checkRustVersion i.channel i.semver i.commitDate = .proceed) :
    ((i.argv.drop 2).head? = some "build" → i.stageA.success = true →
      (∀ conf, getMeta i = .ok conf →
        i.stageB.success = true → i.stageC.success = true →
        (runDriver i).events =
          [Event.gate, Event.stageA, Event.probe, Event.stageB, Event.stageC] ∧
        (runDriver i).cmds.map Cmd.prog = ["cargo", "smdhtool", "3dsxtool"])) ∧
    ((i.argv.drop 2).head? = some "link" → i.stageA.success = true →
      (∀ conf, getMeta i = .ok conf →
        i.stageB.success = true → i.stageC.success = true →
        (runDriver i).events =
          [Event.gate, Event.stageA, Event.probe, Event.stageB, Event.stageC,
            Event.upload] ∧
        (runDriver i).cmds.map Cmd.prog =
          ["cargo", "smdhtool", "3dsxtool", "3dslink"])) ∧
    (i.argv.drop 2 = [] →
      (runDriver i).outcome = .panicked noCommandMsg ∧
      (runDriver i).outcome.status = 101 ∧ (runDriver i).cmds = []) ∧
    (∀ v, (i.argv.drop 2).head? = some v → v ≠ "build" → v ≠ "link" →
      (runDriver i).outcome = .panicked invalidCommandMsg ∧
      (runDriver i).outcome.status = 101 ∧ (runDriver i).cmds = []) := by
  refine ⟨?_, ?_, ?_, ?_⟩
  · intro hb hA conf hgm hB hC
    have hpv : parseVerb i.argv = .ok false := by
      unfold parseVerb
      rw [hb]
      rfl
    unfold runDriver
    rw [hg, hpv, hA, hgm, hB, hC]
    exact ⟨rfl, rfl⟩
  · intro hb hA conf hgm hB hC
    have hpv : parseVerb i.argv = .ok true := by
      unfold parseVerb
      rw [hb]
      rfl
    unfold runDriver
    rw [hg, hpv, hA, hgm, hB, hC]
    cases hu : i.upload.success <;> exact ⟨rfl, rfl⟩
  · intro hnil
    have hpv : parseVerb i.argv = .error noCommandMsg := by
      unfold parseVerb
      rw [hnil]
      rfl
    unfold runDriver
    rw [hg, hpv]
    exact ⟨rfl, rfl, rfl⟩
  · intro v hv hv1 hv2
    have hpv : parseVerb i.argv = .error invalidCommandMsg := by
      unfold parseVerb
      rw [hv]
      simp [hv1, hv2]
    unfold runDriver
    rw [hg, hpv]
    exact ⟨rfl, rfl, rfl⟩

/-- A fully successful `build` run used to witness C4. -/
def iC4w : DriverInput :=
  ⟨["cargo", "3ds", "build"], none, .nightly, ⟨1, 60, 0⟩, none,
    true, true, "hello", ["alice"], none, true, none, false,
    .exited 0, .exited 0, .exited 0, .exited 0⟩

/-- Witness for C4 at a concrete input: `build` spawns exactly the three
build stages. -/
theorem C4_verb_dispatch_witness :
    (runDriver iC4w).events =
      [Event.gate, Event.stageA, Event.probe, Event.stageB, Event.stageC] ∧
    (runDriver iC4w).cmds.map Cmd.prog = ["cargo", "smdhtool", "3dsxtool"] :=
  (C4_verb_dispatch iC4w rfl).1 rfl rfl
    ⟨"hello", "alice", defaultDescription, "./icon.png"⟩ rfl rfl rfl

/-! ## C1 — failure propagation -/

/-- C1: for each pipeline stage and the uploader, a child that does not
succeed makes the driver exit with that child's propagated code — the child's
own non-zero code, or 1 when the child was killed without a code — and no
subsequent stage is spawned. -/
theorem C1_failure_propagation (i : DriverInput) (ml : Bool)
    (hg : checkRustVersion i.channel i.semver i.commitDate = .proceed)
    (hv : parseVerb i.argv = .ok ml) :
    (i.stageA.success = false →
      (runDriver i).outcome = .exits i.stageA.exitCode ∧
      Event.stageB ∉ (runDriver i).events ∧ Event.stageC ∉ (runDriver i).events ∧
      Event.upload ∉ (runDriver i).events) ∧
    (∀ conf, getMeta i = .ok conf → i.stageA.success = true →
      i.stageB.success = false →
      (runDriver i).outcome = .exits i.stageB.exitCode ∧
      Event.stageC ∉ (runDriver i).events ∧ Event.upload ∉ (runDriver i).events) ∧
    (∀ conf, getMeta i = .ok conf → i.stageA.success = true →
      i.stageB.success = true → i.stageC.success = false →
      (runDriver i).outcome = .exits i.stageC.exitCode ∧
      Event.upload ∉ (runDriver i).events) ∧
    (ml = true → ∀ conf, getMeta i = .ok conf → i.stageA.success = true →
      i.stageB.success = true → i.stageC.success = true → i.upload.success = false →
      (runDriver i).outcome = .exits i.upload.exitCode) ∧
    (∀ c : Int, c ≠ 0 → (ChildStatus.exited c).exitCode = c) ∧
    ChildStatus.signalled.exitCode = 1 := by
  refine ⟨?_, ?_, ?_, ?_, fun c _ => rfl, rfl⟩
  · intro hA
    unfold runDriver
    rw [hg, hv, hA]
    refine ⟨rfl, ?_, ?_, ?_⟩
    · show Event.stageB ∉ [Event.gate, Event.stageA]
      decide
    · show Event.stageC ∉ [Event.gate, Event.stageA]
      decide
    · show Event.upload ∉ [Event.gate, Event.stageA]
      decide
  · intro conf hgm hA hB
    unfold runDriver
    rw [hg, hv, hA, hgm, hB]
    refine ⟨rfl, ?_, ?_⟩
    · show Event.stageC ∉ [Event.gate, Event.stageA, Event.probe, Event.stageB]
      decide
    · show Event.upload ∉ [Event.gate, Event.stageA, Event.probe, Event.stageB]
      decide
  · intro conf hgm hA hB hC
    unfold runDriver
    rw [hg, hv, hA, hgm, hB, hC]
    refine ⟨rfl, ?_⟩
    show Event.upload ∉ [Event.gate, Event.stageA, Event.probe, Event.stageB, Event.stageC]
    decide
  · intro hml conf hgm hA hB hC hU
    subst hml
    unfold runDriver
    rw [hg, hv, hA, hgm, hB, hC, hU]
    rfl

/-- A `build` run whose SMDH packer exits with code 2. -/
def iC1 : DriverInput :=
  ⟨["cargo", "3ds", "build"], none, .nightly, ⟨1, 60, 0⟩, none,
    true, true, "hello", ["alice"], none, true, none, false,
    .exited 0, .exited 2, .exited 0, .exited 0⟩

/-- Witness for C1 at a concrete input: Stage B exiting 2 makes the driver
exit 2 without spawning Stage C or the uploader. -/
theorem C1_failure_propagation_witness :
    (runDriver iC1).outcome = .exits 2 ∧
    Event.stageC ∉ (runDriver iC1).events ∧
    Event.upload ∉ (runDriver iC1).events :=
  (C1_failure_propagation iC1 false rfl rfl).2.1
    ⟨"hello", "alice", defaultDescription, "./icon.png"⟩ rfl rfl rfl

/-! ## C8 — commit-date parse and display -/

lemma isDigitChar_bounds (c : Char) (h : isDigitChar c = true) :
    48 ≤ c.toNat ∧ c.toNat ≤ 57 := by
  simpa [isDigitChar] using h

lemma digitChar_digitVal (c : Char) (h : isDigitChar c = true) :
    digitChar (digitVal c) = c := by
  obtain ⟨h1, h2⟩ := isDigitChar_bounds c h
  have e : 48 + digitVal c = c.toNat := by
    unfold digitVal
    omega
  rw [digitChar, e, Char.ofNat_toNat]

lemma digitVal_lt_ten (c : Char) (h : isDigitChar c = true) : digitVal c < 10 := by
  obtain ⟨h1, h2⟩ := isDigitChar_bounds c h
  unfold digitVal
  omega

lemma isDigitChar_ne_dash (c : Char) (h : isDigitChar c = true) : ¬ c = '-' := by
  intro he
  subst he
  exact absurd h (by decide)

lemma isDigitChar_ne_plus (c : Char) (h : isDigitChar c = true) : ¬ c = '+' := by
  intro he
  subst he
  exact absurd h (by decide)

lemma digitsVal_append (cs : List Char) (c : Char) :
    digitsVal (cs ++ [c]) = 10 * digitsVal cs + digitVal c := by
  unfold digitsVal
  rw [List.foldl_append]
  rfl

lemma digitsVal_lt :
    ∀ cs : List Char, allDigits cs = true → digitsVal cs < 10 ^ cs.length := by
  intro cs
  induction cs using List.reverseRecOn with
  | nil =>
    intro _
    simp [digitsVal]
  | append_singleton cs c ih =>
    intro h
    have h1 : allDigits cs = true ∧ isDigitChar c = true := by
      simpa [allDigits] using h
    have hv := ih h1.1
    have hd := digitVal_lt_ten c h1.2
    rw [digitsVal_append, List.length_append]
    simp only [List.length_singleton, pow_succ]
    omega

/-- The `w` least significant decimal digits of a number, most significant
first: the normal form a zero-padded width-`w` rendering takes. -/
def padList : Nat → Nat → List Char
  | 0, _ => []
  | w + 1, n => padList w (n / 10) ++ [digitChar (n % 10)]

lemma padList_zero : ∀ w, padList w 0 = List.replicate w '0' := by
  intro w
  induction w with
  | zero => rfl
  | succ w ih =>
    show padList w (0 / 10) ++ [digitChar (0 % 10)] = _
    rw [Nat.zero_div, ih, List.replicate_succ']
    rfl

lemma padList_val :
    ∀ cs : List Char, allDigits cs = true →
      padList cs.length (digitsVal cs) = cs := by
  intro cs
  induction cs using List.reverseRecOn with
  | nil =>
    intro _
    rfl
  | append_singleton cs c ih =>
    intro h
    have h1 : allDigits cs = true ∧ isDigitChar c = true := by
      simpa [allDigits] using h
    have hd := digitVal_lt_ten c h1.2
    rw [digitsVal_append, List.length_append]
    simp only [List.length_singleton]
    have e1 : (10 * digitsVal cs + digitVal c) / 10 = digitsVal cs := by omega
    have e2 : (10 * digitsVal cs + digitVal c) % 10 = digitVal c := by omega
    show padList cs.length _ ++ [digitChar _] = _
    rw [e1, e2, ih h1.1, digitChar_digitVal c h1.2]

lemma pad_natToChars :
    ∀ n w, 0 < w → n < 10 ^ w → padZerosL w (natToChars n) = padList w n := by
  intro n
  induction n using Nat.strong_induction_on with
  | _ n ih =>
    intro w hw hn
    obtain ⟨w', rfl⟩ : ∃ w', w = w' + 1 := ⟨w - 1, by omega⟩
    by_cases h10 : n < 10
    · have hnc : natToChars n = [digitChar n] := by
        rw [natToChars]
        simp [h10]
      have e1 : n / 10 = 0 := by omega
      have e2 : n % 10 = n := by omega
      rw [hnc]
      show _ = padList w' (n / 10) ++ [digitChar (n % 10)]
      rw [e1, e2, padList_zero]
      unfold padZerosL
      simp
    · have hnc : natToChars n = natToChars (n / 10) ++ [digitChar (n % 10)] := by
        rw [natToChars]
        simp [h10]
      have hw' : 0 < w' := by
        by_contra h0
        have hz : w' = 0 := by omega
        subst hz
        simp at hn
        omega
      have hn' : n / 10 < 10 ^ w' := by
        have hmul : n < 10 ^ w' * 10 := by
          rw [← pow_succ]
          exact hn
        omega
      have ihh := ih (n / 10) (Nat.div_lt_self (by omega) (by omega)) w' hw' hn'
      rw [hnc]
      unfold padZerosL at ihh ⊢
      rw [List.length_append]
      simp only [List.length_singleton]
      have e3 : (w' + 1) - ((natToChars (n / 10)).length + 1) =
          w' - (natToChars (n / 10)).length := by omega
      rw [e3]
      show _ = padList w' (n / 10) ++ [digitChar (n % 10)]
      rw [← ihh, ← List.append_assoc]

lemma render_digits (cs : List Char) (h : allDigits cs = true) (hne : cs ≠ []) :
    padZerosL cs.length (natToChars (digitsVal cs)) = cs := by
  have hw : 0 < cs.length := List.length_pos.mpr hne
  rw [pad_natToChars (digitsVal cs) cs.length hw (digitsVal_lt cs h), padList_val cs h]

/-- C8 counterexample: `1-2-3` is not a syntactically valid `YYYY-MM-DD`
string, yet `CommitDate::parse` accepts it — the claimed "returns None for
every other string" fails. -/
theorem C8_date_parse_counterexample :
    CommitDate.parse "1-2-3" = some ⟨1, 2, 3⟩ ∧ validYMD "1-2-3" = false := by
  exact ⟨rfl, rfl⟩

/-- C8 (amended): `CommitDate::parse` succeeds on every syntactically valid
`YYYY-MM-DD` string and re-rendering the parsed date through `Display` yields
the original string; however parse does **not** reject every other string (it
also accepts, e.g., unpadded or over-long `-`-separated digit strings). -/
theorem C8_date_parse_display (s : String) (h : validYMD s = true) :
    ∃ d : CommitDate, CommitDate.parse s = some d ∧ d.display = s := by
  obtain ⟨cs⟩ := s
  rcases cs with _ | ⟨a, _ | ⟨b, _ | ⟨c, _ | ⟨d, _ | ⟨p, _ | ⟨e, _ | ⟨f, _ |
    ⟨q, _ | ⟨g, _ | ⟨k, _ | ⟨x, rest⟩⟩⟩⟩⟩⟩⟩⟩⟩⟩⟩ <;>
    simp [validYMD] at h
  obtain ⟨⟨⟨⟨⟨⟨⟨⟨⟨ha, hb⟩, hc⟩, hd⟩, hp'⟩, he⟩, hf⟩, hq'⟩, hg⟩, hk⟩ := h
  subst hp'
  subst hq'
  have hA4 : allDigits [a, b, c, d] = true := by simp [allDigits, ha, hb, hc, hd]
  have hA2 : allDigits [e, f] = true := by simp [allDigits, he, hf]
  have hA2' : allDigits [g, k] = true := by simp [allDigits, hg, hk]
  have hsplit : splitDash [a, b, c, d, '-', e, f, '-', g, k] =
      [[a, b, c, d], [e, f], [g, k]] := by
    simp [splitDash, isDigitChar_ne_dash a ha, isDigitChar_ne_dash b hb,
      isDigitChar_ne_dash c hc, isDigitChar_ne_dash d hd,
      isDigitChar_ne_dash e he, isDigitChar_ne_dash f hf,
      isDigitChar_ne_dash g hg, isDigitChar_ne_dash k hk]
  have hsplit' : splitDash (String.mk [a, b, c, d, '-', e, f, '-', g, k]).data =
      [[a, b, c, d], [e, f], [g, k]] := hsplit
  have hparse : ∀ cs : List Char, allDigits cs = true → cs ≠ [] →
      cs.length ≤ 4 → parseI32 cs = some ((digitsVal cs : Nat) : Int) := by
    intro cs hall hne hlen
    obtain ⟨c0, cs', rfl⟩ : ∃ c0 cs', cs = c0 :: cs' := by
      cases cs with
      | nil => exact absurd rfl hne
      | cons c0 cs' => exact ⟨c0, cs', rfl⟩
    have hc0 : isDigitChar c0 = true := by
      have h2 := hall
      simp [allDigits] at h2
      exact h2.1
    simp only [parseI32]
    rw [if_neg (isDigitChar_ne_plus c0 hc0), if_neg (isDigitChar_ne_dash c0 hc0)]
    have hpn : parseNatDigits (c0 :: cs') = some (digitsVal (c0 :: cs')) := by
      simp [parseNatDigits, hall]
    rw [hpn]
    have hlt := digitsVal_lt (c0 :: cs') hall
    have hbound : digitsVal (c0 :: cs') ≤ 2147483647 := by
      have h4 : (10 : Nat) ^ (c0 :: cs').length ≤ 10 ^ 4 :=
        Nat.pow_le_pow_right (by omega) hlen
      have h5 : (10 : Nat) ^ 4 = 10000 := by norm_num
      omega
    simp [hbound]
  have hp1 := hparse [a, b, c, d] hA4 (by simp) (by simp)
  have hp2 := hparse [e, f] hA2 (by simp) (by simp)
  have hp3 := hparse [g, k] hA2' (by simp) (by simp)
  refine ⟨⟨((digitsVal [a, b, c, d] : Nat) : Int), ((digitsVal [e, f] : Nat) : Int),
    ((digitsVal [g, k] : Nat) : Int)⟩, ?_, ?_⟩
  · simp only [CommitDate.parse, hsplit, hsplit', hp1, hp2, hp3]
  · have hd1 : fmtIntPad 4 ((digitsVal [a, b, c, d] : Nat) : Int) = [a, b, c, d] := by
      unfold fmtIntPad
      rw [if_neg (Int.not_lt.mpr (Int.natCast_nonneg _)), Int.toNat_natCast]
      exact render_digits [a, b, c, d] hA4 (by simp)
    have hd2 : fmtIntPad 2 ((digitsVal [e, f] : Nat) : Int) = [e, f] := by
      unfold fmtIntPad
      rw [if_neg (Int.not_lt.mpr (Int.natCast_nonneg _)), Int.toNat_natCast]
      exact render_digits [e, f] hA2 (by simp)
    have hd3 : fmtIntPad 2 ((digitsVal [g, k] : Nat) : Int) = [g, k] := by
      unfold fmtIntPad
      rw [if_neg (Int.not_lt.mpr (Int.natCast_nonneg _)), Int.toNat_natCast]
      exact render_digits [g, k] hA2' (by simp)
    simp only [CommitDate.display, hd1, hd2, hd3]
    rfl

/-- Witness for C8 at a concrete input: the pinned minimum date string parses
and re-renders to itself. -/
theorem C8_date_parse_display_witness :
    validYMD "2021-10-01" = true ∧
    ∃ d : CommitDate, CommitDate.parse "2021-10-01" = some d ∧
      d.display = "2021-10-01" :=
  ⟨rfl, C8_date_parse_display "2021-10-01" rfl⟩

end Cargo3ds
